import Mathlib

/-!
Verification of the arkworks curve-operation bridge (sp-arkworks primitives).

The four source modules (`bls12_381.rs`, `bw6_761.rs`, `ed_on_bls12_377.rs`,
`ed_on_bls12_381.rs`) expose byte-buffer entry points that decode their
inputs with `.unwrap()` (panicking on a decode failure), discard the decoded
values, and serialize a fixed result: the group generator for the scalar
multiplication and multi-scalar-multiplication entry points, and the zero
element of the pairing target field for `multi_miller_loop` and
`final_exponentiation`.

The byte codec itself (the shared `serialize_result` helper and the arkworks
`CanonicalSerialize`/`CanonicalDeserialize` implementations it invokes) is not
part of the four source files; it is modelled here from the specification:
fixed-width uncompressed little-endian field elements, affine short
Weierstrass points as two coordinates plus a point-at-infinity flag, twisted
Edwards affine points as two coordinates, projective points as three
coordinates, scalars as sequences of 64-bit limbs, and field-element decoding
that rejects values at or above the modulus while performing no on-curve
validation.
-/

set_option maxRecDepth 100000

/-- A byte of a raw input or output buffer, as handed across the host boundary. -/
abbrev Byte := Fin 256

/-- Modelled from the spec: value of a little-endian byte sequence (the
uncompressed fixed-width integer representation used by the codec). -/
def leValue : List Byte → Nat
  | [] => 0
  | b :: bs => b.val + 256 * leValue bs

/-- Modelled from the spec: the `w`-byte little-endian encoding of a natural
number, as emitted by the fixed-width uncompressed field-element encoder. -/
def natToLE : Nat → Nat → List Byte
  | 0, _ => []
  | w + 1, x => (⟨x % 256, Nat.mod_lt x (by decide)⟩ : Byte) :: natToLE w (x / 256)

/-- Modelled from the spec: fixed-width encoding of a coordinate made of one
or more base-field components (one for `Fp`, two for `Fp2`, and so on). -/
def encodeCoord (w : Nat) (xs : List Nat) : List Byte :=
  (xs.map (natToLE w)).flatten

/-- Modelled from the spec: read one `w`-byte field element from the front of
a buffer; fails when the buffer is too short or the value is at or above the
modulus `p` (out-of-range representation). -/
def decodeFpChunk (w p : Nat) (bs : List Byte) : Option (Nat × List Byte) :=
  if w ≤ bs.length then
    if leValue (bs.take w) < p then some (leValue (bs.take w), bs.drop w) else none
  else none

/-- Modelled from the spec: read `k` consecutive field elements (one extension
field coordinate) from the front of a buffer. -/
def decodeFpSeq (w p : Nat) : Nat → List Byte → Option (List Nat × List Byte)
  | 0, bs => some ([], bs)
  | k + 1, bs =>
    (decodeFpChunk w p bs).bind fun vr =>
      (decodeFpSeq w p k vr.2).bind fun vsr =>
        some (vr.1 :: vsr.1, vsr.2)

/-- Modelled from the spec: decode a single field element filling the whole
buffer (the scalar-field decoder used by the MSM entry points). -/
def decodeFpExact (w p : Nat) (bs : List Byte) : Option Nat :=
  (decodeFpChunk w p bs).bind fun vr =>
    match vr.2 with
    | [] => some vr.1
    | _ => none

/-- Modelled from the spec: encode a single field element at fixed width. -/
def encodeFp (w x : Nat) : List Byte :=
  natToLE w x

/-- Validity of a decoded coordinate: `k` components, each below the modulus. -/
def coordValid (p k : Nat) (c : List Nat) : Prop :=
  c.length = k ∧ ∀ v ∈ c, v < p

instance (p k : Nat) (c : List Nat) : Decidable (coordValid p k c) := by
  unfold coordValid; infer_instance

/-- An affine short Weierstrass point: two coordinates (each a list of
base-field components) and a point-at-infinity flag. -/
structure SWAffinePoint where
  x : List Nat
  y : List Nat
  inf : Bool
deriving DecidableEq

/-- An affine twisted Edwards point: two coordinates, no infinity flag (the
identity is an ordinary point of the curve). -/
structure TEAffinePoint where
  x : List Nat
  y : List Nat
deriving DecidableEq

/-- A projective point: three coordinates. -/
structure ProjPoint where
  x : List Nat
  y : List Nat
  z : List Nat
deriving DecidableEq

/-- Modelled from the spec: the single flag byte carrying the
point-at-infinity bit of the affine short Weierstrass representation. -/
def infByte (b : Bool) : Byte :=
  if b then 1 else 0

/-- Modelled from the spec: fixed-width uncompressed encoding of an affine
short Weierstrass point (coordinates plus infinity flag byte). -/
def encodeSWAffine (w : Nat) (P : SWAffinePoint) : List Byte :=
  encodeCoord w P.x ++ encodeCoord w P.y ++ [infByte P.inf]

/-- Modelled from the spec: decode an affine short Weierstrass point from a
buffer of the exact fixed width; no on-curve validation is performed. -/
def decodeSWAffine (w p k : Nat) (bs : List Byte) : Option SWAffinePoint :=
  (decodeFpSeq w p k bs).bind fun xr =>
    (decodeFpSeq w p k xr.2).bind fun yr =>
      match yr.2 with
      | [b] =>
        if b = 0 then some ⟨xr.1, yr.1, false⟩
        else if b = 1 then some ⟨xr.1, yr.1, true⟩
        else none
      | _ => none

/-- Modelled from the spec: fixed-width uncompressed encoding of an affine
twisted Edwards point (two coordinates, no flag byte). -/
def encodeTEAffine (w : Nat) (P : TEAffinePoint) : List Byte :=
  encodeCoord w P.x ++ encodeCoord w P.y

/-- Modelled from the spec: decode an affine twisted Edwards point from a
buffer of the exact fixed width; no on-curve validation is performed. -/
def decodeTEAffine (w p k : Nat) (bs : List Byte) : Option TEAffinePoint :=
  (decodeFpSeq w p k bs).bind fun xr =>
    (decodeFpSeq w p k xr.2).bind fun yr =>
      match yr.2 with
      | [] => some ⟨xr.1, yr.1⟩
      | _ => none

/-- Modelled from the spec: fixed-width uncompressed encoding of a projective
point (three coordinates). -/
def encodeProj (w : Nat) (Q : ProjPoint) : List Byte :=
  encodeCoord w Q.x ++ encodeCoord w Q.y ++ encodeCoord w Q.z

/-- Modelled from the spec: decode a projective point from a buffer of the
exact fixed width; no on-curve validation is performed. -/
def decodeProjPoint (w p k : Nat) (bs : List Byte) : Option ProjPoint :=
  (decodeFpSeq w p k bs).bind fun xr =>
    (decodeFpSeq w p k xr.2).bind fun yr =>
      (decodeFpSeq w p k yr.2).bind fun zr =>
        match zr.2 with
        | [] => some ⟨xr.1, yr.1, zr.1⟩
        | _ => none

/-- Modelled from the spec: encoding of a pairing target field element as `k`
fixed-width base-field coefficients. -/
def encodeTargetElem (w : Nat) (vs : List Nat) : List Byte :=
  encodeCoord w vs

/-- Modelled from the spec: decode a pairing target field element (`k`
base-field coefficients filling the whole buffer). -/
def decodeTargetElem (w p k : Nat) (bs : List Byte) : Option (List Nat) :=
  (decodeFpSeq w p k bs).bind fun vr =>
    match vr.2 with
    | [] => some vr.1
    | _ => none

/-- Modelled from the spec: split a buffer into 64-bit little-endian limbs,
reading `n` limbs of eight bytes each. -/
def limbsOfAux : Nat → List Byte → List Nat
  | 0, _ => []
  | n + 1, bs => leValue (bs.take 8) :: limbsOfAux n (bs.drop 8)

/-- Modelled from the spec: the scalar codec decodes raw unsigned 64-bit limb
sequences, without reduction modulo the scalar-field order; it fails on a
malformed limb-sequence length. -/
def decodeScalarLimbs (bs : List Byte) : Option (List Nat) :=
  if bs.length % 8 = 0 then some (limbsOfAux (bs.length / 8) bs) else none

/-- Modelled from the spec: encoding of a scalar as a sequence of 64-bit
little-endian limbs. -/
def encodeScalarLimbs (ls : List Nat) : List Byte :=
  encodeCoord 8 ls

/-- Decode every buffer of a list, failing if any single decode fails. This
mirrors the `iter().map(deserialize).collect()` loops of the source, where
each element is deserialized independently. -/
def decodeAll {α : Type} (dec : List Byte → Option α) : List (List Byte) → Option (List α)
  | [] => some []
  | b :: bs =>
    match dec b with
    | none => none
    | some x =>
      match decodeAll dec bs with
      | none => none
      | some xs => some (x :: xs)

/-- Observable outcome of one entry-point call: either an output byte buffer,
or an aborted call — the source calls `.unwrap()` on every decode result, so
a failed decode aborts the call with a panic rather than a returned error. -/
inductive CallResult where
  | ok : List Byte → CallResult
  | panicked : CallResult
deriving DecidableEq

/-! ## Curve Family Registry

Per-family parameters consumed by the codec and the entry points. The
widths follow the fixed uncompressed byte widths of the spec; the moduli are
the standard published field orders of the four named families. The generator
coordinates are supplied by the external Arithmetic Engine (arkworks), which
is outside this repository; the spec fixes the existence of a
group-generator lookup but not its numeric coordinates, so representative
fixed constants are used — no claim below depends on their values, only on
the generator being an ordinary (non-identity) point. -/

/-- Modelled from the spec: BLS12-381 base field modulus. -/
def pBls : Nat :=
  0x1a0111ea397fe69a4b1ba7b6434bacd764774b84f38512bf6730d2a0f6b0f6241eabfffeb153ffffb9feffffffffaaab

/-- Modelled from the spec: BLS12-381 scalar field modulus. -/
def rBls : Nat :=
  0x73eda753299d7d483339d80809a1d80553bda402fffe5bfeffffffff00000001

/-- Modelled from the spec: BW6-761 base field modulus. -/
def pBw6 : Nat :=
  0x122e824fb83ce0ad187c94004faff3eb926186a81d14688528275ef8087be41707ba638e584e91903cebaff25b423048689c8ed12f9fd9071dcd3dc73ebff2e98a116c25667a8f8160cf8aeeaf0a437e6913e6870000082f49d00000000008b

/-- Modelled from the spec: BW6-761 scalar field modulus (the BLS12-377 base
field). -/
def rBw6 : Nat :=
  0x1ae3a4617c510eac63b05c06ca1493b1a22d9f300f5138f1ef3622fba094800170b5d44300000008508c00000000001

/-- Modelled from the spec: Edwards-on-BLS12-377 base field modulus (the
BLS12-377 scalar field). -/
def pEd377 : Nat :=
  0x12ab655e9a2ca55660b44d1e5c37b00159aa76fed00000010a11800000000001

/-- Modelled from the spec: Edwards-on-BLS12-377 scalar field modulus. -/
def rEd377 : Nat :=
  0x4aad957a68b2955982d1347970dec005293a3afc43c8afeb95aee9ac33fd9ff

/-- Modelled from the spec: Edwards-on-BLS12-381 base field modulus (the
BLS12-381 scalar field). -/
def pJub : Nat := rBls

/-- Modelled from the spec: Edwards-on-BLS12-381 scalar field modulus. -/
def rJub : Nat :=
  0xe7db4ea6533afa906673b0101343b00a6682093ccc81082d0970e5ed6f72cb7

/-- BLS12-381 base-field element byte width (381 bits, 48 bytes). -/
def wBlsFq : Nat := 48

/-- BLS12-381 scalar-field element byte width (255 bits, 32 bytes). -/
def wBlsFr : Nat := 32

/-- BW6-761 base-field element byte width (761 bits, 96 bytes). -/
def wBw6Fq : Nat := 96

/-- BW6-761 scalar-field element byte width (377 bits, 48 bytes). -/
def wBw6Fr : Nat := 48

/-- Edwards-on-BLS12-377 field element byte width (32 bytes for both the base
and the scalar field). -/
def wEd377 : Nat := 32

/-- Edwards-on-BLS12-381 field element byte width (32 bytes for both the base
and the scalar field). -/
def wJub : Nat := 32

/-- Modelled from the spec: BLS12-381 G1 generator, affine (engine constant). -/
def blsG1GenAff : SWAffinePoint :=
  { x := [0x17f1d3a73197d7942695638c4fa9ac0fc3688c4f9774b905a14e3a3f171bac586c55e83ff97a1aeffb3af00adb22c6bb]
    y := [0x08b3f481e3aaa0f1a09e30ed741d8ae4fcf5e095d5d00af600db18cb2c04b3edd03cc744a2888ae40caa232946c5e7e1]
    inf := false }

/-- Modelled from the spec: BLS12-381 G1 generator, projective (engine
constant; the canonical lift of the affine generator). -/
def blsG1GenProj : ProjPoint :=
  { x := blsG1GenAff.x, y := blsG1GenAff.y, z := [1] }

/-- Modelled from the spec: BLS12-381 G2 generator, affine (engine constant;
coordinates in the quadratic extension, two components each). -/
def blsG2GenAff : SWAffinePoint :=
  { x := [0x024aa2b2f08f0a91260805272dc51051c6e47ad4fa403b02b4510b647ae3d1770bac0326a805bbefd48056c8c121bdb8,
          0x13e02b6052719f607dacd3a088274f65596bd0d09920b61ab5da61bbdc7f5049334cf11213945d57e5ac7d055d042b7e]
    y := [0x0ce5d527727d6e118cc9cdc6da2e351aadfd9baa8cbdd3a76d429a695160d12c923ac9cc3baca289e193548608b82801,
          0x0606c4a02ea734cc32acd2b02bc28b99cb3e287e85a763af267492ab572e99ab3f370d275cec1da1aaa9075ff05f79be]
    inf := false }

/-- Modelled from the spec: BLS12-381 G2 generator, projective. -/
def blsG2GenProj : ProjPoint :=
  { x := blsG2GenAff.x, y := blsG2GenAff.y, z := [1, 0] }

/-- Modelled from the spec: BW6-761 G1 generator, affine (engine constant). -/
def bw6G1GenAff : SWAffinePoint :=
  { x := [6238772257594679368032145693622812838779005809760824733138787810501188623461307351759238099287535516224314149266511977132140828635950940021790489507611754366317801811090811367945064510304504157188661901055903167026722666149426237]
    y := [2101735126520897423911504562215834951148127555913367997162789335052900271653517958562461315794228241561913734371411178226936527683203879553093934185950470971848972085321797958124416462268292467002957525517188485984766314758624099]
    inf := false }

/-- Modelled from the spec: BW6-761 G1 generator, projective. -/
def bw6G1GenProj : ProjPoint :=
  { x := bw6G1GenAff.x, y := bw6G1GenAff.y, z := [1] }

/-- Modelled from the spec: BW6-761 G2 generator, affine (engine constant). -/
def bw6G2GenAff : SWAffinePoint :=
  { x := [6445332910596979336035888152774071626898886139774101364933948236926875073754470830732273879639675437155036544153105017729592600560631678554299562762294743927912429096636156401171909259073181112518725201388196280039960074422214428]
    y := [562923658089539719386922163444547387757586534741080263946953401595155211934630598999300396317104182598044793758153214972605680357108252243146746187917218885078195819486220416605630144001533548163105316661692978285266378674355041]
    inf := false }

/-- Modelled from the spec: BW6-761 G2 generator, projective. -/
def bw6G2GenProj : ProjPoint :=
  { x := bw6G2GenAff.x, y := bw6G2GenAff.y, z := [1] }

/-- Modelled from the spec: Edwards-on-BLS12-377 generator, affine (engine
constant). -/
def ed377GenAff : TEAffinePoint :=
  { x := [4497879464030519973909970603271755437257548612157028829454100244926212487914]
    y := [4357141146396347889246900916607623952598927460421559113092863576544024487809] }

/-- Modelled from the spec: Edwards-on-BLS12-377 generator, projective. -/
def ed377GenProj : ProjPoint :=
  { x := ed377GenAff.x, y := ed377GenAff.y, z := [1] }

/-- Modelled from the spec: Edwards-on-BLS12-381 generator of the twisted
Edwards model, affine (engine constant). -/
def jubTEGenAff : TEAffinePoint :=
  { x := [8076246640662884909881801758704306714034609987455869804520522091855516602923]
    y := [13262374693698910701929044844600465831413122818447359594527400194675274060458] }

/-- Modelled from the spec: Edwards-on-BLS12-381 twisted Edwards generator,
projective. -/
def jubTEGenProj : ProjPoint :=
  { x := jubTEGenAff.x, y := jubTEGenAff.y, z := [1] }

/-- Modelled from the spec: Edwards-on-BLS12-381 generator of the short
Weierstrass model, affine (engine constant). -/
def jubSWGenAff : SWAffinePoint :=
  { x := [9076188032152803141623331077366783252361687977732706031214336298222993438125]
    y := [5361084480479584404490678075963731558972687942870155380079102682429287231807]
    inf := false }

/-- Modelled from the spec: Edwards-on-BLS12-381 short Weierstrass generator,
projective. -/
def jubSWGenProj : ProjPoint :=
  { x := jubSWGenAff.x, y := jubSWGenAff.y, z := [1] }

/-- The zero element of the BLS12-381 target field `Fq12` (twelve base-field
coefficients), the value the stubbed pairing entry points serialize. -/
def blsFq12Zero : List Nat := List.replicate 12 0

/-- The multiplicative identity of the BLS12-381 target field `Fq12`. -/
def blsFq12One : List Nat := 1 :: List.replicate 11 0

/-- The zero element of the BW6-761 target field `Fq6` (six base-field
coefficients). -/
def bw6Fq6Zero : List Nat := List.replicate 6 0

/-- The multiplicative identity of the BW6-761 target field `Fq6`. -/
def bw6Fq6One : List Nat := 1 :: List.replicate 5 0

/-- The projective encoding of the short Weierstrass group identity, `(0, 1, 0)`. -/
def swProjIdentity : ProjPoint := { x := [0], y := [1], z := [0] }

/-- The projective encoding of the twisted Edwards group identity, `(0, 1, 1)`. -/
def teProjIdentity : ProjPoint := { x := [0], y := [1], z := [1] }

/-! ## Operation Dispatcher: `bls12_381.rs`

Each function mirrors the corresponding `pub fn` of the source file: it
deserializes every input (the source unwraps each deserialization result, so
a failure aborts the call), ignores the decoded values, and serializes the
fixed result the source constructs (`QuadExtField::zero()` for the pairing
steps, a group generator for everything else). -/

namespace bls12_381

/-- Mirrors `multi_miller_loop`: decodes the G1 and G2 affine input lists and
serializes `Fq12::zero()`. -/
def multi_miller_loop (a_vec b_vec : List (List Byte)) : CallResult :=
  match decodeAll (decodeSWAffine wBlsFq pBls 1) a_vec with
  | none => CallResult.panicked
  | some _ =>
    match decodeAll (decodeSWAffine wBlsFq pBls 2) b_vec with
    | none => CallResult.panicked
    | some _ => CallResult.ok (encodeTargetElem wBlsFq blsFq12Zero)

/-- Mirrors `final_exponentiation`: decodes a target-field element and
serializes `Fq12::zero()`. -/
def final_exponentiation (target : List Byte) : CallResult :=
  match decodeTargetElem wBlsFq pBls 12 target with
  | none => CallResult.panicked
  | some _ => CallResult.ok (encodeTargetElem wBlsFq blsFq12Zero)

/-- Mirrors `mul_projective_g2`: decodes a projective G2 point and a scalar
limb sequence and serializes `G2Projective::generator()`. -/
def mul_projective_g2 (base scalar : List Byte) : CallResult :=
  match decodeProjPoint wBlsFq pBls 2 base with
  | none => CallResult.panicked
  | some _ =>
    match decodeScalarLimbs scalar with
    | none => CallResult.panicked
    | some _ => CallResult.ok (encodeProj wBlsFq blsG2GenProj)

/-- Mirrors `mul_projective_g1`: decodes a projective G1 point and a scalar
limb sequence and serializes `G1Projective::generator()`. -/
def mul_projective_g1 (base scalar : List Byte) : CallResult :=
  match decodeProjPoint wBlsFq pBls 1 base with
  | none => CallResult.panicked
  | some _ =>
    match decodeScalarLimbs scalar with
    | none => CallResult.panicked
    | some _ => CallResult.ok (encodeProj wBlsFq blsG1GenProj)

/-- Mirrors `mul_affine_g1`: decodes an affine G1 point and a scalar limb
sequence and serializes `G1Projective::generator()`. -/
def mul_affine_g1 (base scalar : List Byte) : CallResult :=
  match decodeSWAffine wBlsFq pBls 1 base with
  | none => CallResult.panicked
  | some _ =>
    match decodeScalarLimbs scalar with
    | none => CallResult.panicked
    | some _ => CallResult.ok (encodeProj wBlsFq blsG1GenProj)

/-- Mirrors `mul_affine_g2`: decodes an affine G2 point and a scalar limb
sequence and serializes `G2Projective::generator()`. -/
def mul_affine_g2 (base scalar : List Byte) : CallResult :=
  match decodeSWAffine wBlsFq pBls 2 base with
  | none => CallResult.panicked
  | some _ =>
    match decodeScalarLimbs scalar with
    | none => CallResult.panicked
    | some _ => CallResult.ok (encodeProj wBlsFq blsG2GenProj)

/-- Mirrors `msm_g1`: decodes the affine G1 bases and scalar-field elements
and serializes `G1Projective::generator()`. -/
def msm_g1 (bases scalars : List (List Byte)) : CallResult :=
  match decodeAll (decodeSWAffine wBlsFq pBls 1) bases with
  | none => CallResult.panicked
  | some _ =>
    match decodeAll (decodeFpExact wBlsFr rBls) scalars with
    | none => CallResult.panicked
    | some _ => CallResult.ok (encodeProj wBlsFq blsG1GenProj)

/-- Mirrors `msm_g2`: decodes the affine G2 bases and scalar-field elements
and serializes `G2Projective::generator()`. -/
def msm_g2 (bases scalars : List (List Byte)) : CallResult :=
  match decodeAll (decodeSWAffine wBlsFq pBls 2) bases with
  | none => CallResult.panicked
  | some _ =>
    match decodeAll (decodeFpExact wBlsFr rBls) scalars with
    | none => CallResult.panicked
    | some _ => CallResult.ok (encodeProj wBlsFq blsG2GenProj)

end bls12_381

/-! ## Operation Dispatcher: `bw6_761.rs`

Both groups of BW6-761 live over the 761-bit base field (one component per
coordinate). Note that, unlike every other family, `mul_affine_g1` and
`mul_affine_g2` construct `G1Affine::generator()` / `G2Affine::generator()`
and therefore serialize the result in the affine representation. -/

namespace bw6_761

/-- Mirrors `multi_miller_loop`: decodes the G1 and G2 affine input lists and
serializes `Fq6::zero()`. -/
def multi_miller_loop (a_vec b_vec : List (List Byte)) : CallResult :=
  match decodeAll (decodeSWAffine wBw6Fq pBw6 1) a_vec with
  | none => CallResult.panicked
  | some _ =>
    match decodeAll (decodeSWAffine wBw6Fq pBw6 1) b_vec with
    | none => CallResult.panicked
    | some _ => CallResult.ok (encodeTargetElem wBw6Fq bw6Fq6Zero)

/-- Mirrors `final_exponentiation`: decodes a target-field element and
serializes `Fq6::zero()`. -/
def final_exponentiation (target : List Byte) : CallResult :=
  match decodeTargetElem wBw6Fq pBw6 6 target with
  | none => CallResult.panicked
  | some _ => CallResult.ok (encodeTargetElem wBw6Fq bw6Fq6Zero)

/-- Mirrors `mul_projective_g2`: decodes a projective G2 point and a scalar
limb sequence and serializes `G2Projective::generator()`. -/
def mul_projective_g2 (base scalar : List Byte) : CallResult :=
  match decodeProjPoint wBw6Fq pBw6 1 base with
  | none => CallResult.panicked
  | some _ =>
    match decodeScalarLimbs scalar with
    | none => CallResult.panicked
    | some _ => CallResult.ok (encodeProj wBw6Fq bw6G2GenProj)

/-- Mirrors `mul_projective_g1`: decodes a projective G1 point and a scalar
limb sequence and serializes `G1Projective::generator()`. -/
def mul_projective_g1 (base scalar : List Byte) : CallResult :=
  match decodeProjPoint wBw6Fq pBw6 1 base with
  | none => CallResult.panicked
  | some _ =>
    match decodeScalarLimbs scalar with
    | none => CallResult.panicked
    | some _ => CallResult.ok (encodeProj wBw6Fq bw6G1GenProj)

/-- Mirrors `mul_affine_g1`: decodes an affine G1 point and a scalar limb
sequence and serializes `G1Affine::generator()` — an affine result. -/
def mul_affine_g1 (base scalar : List Byte) : CallResult :=
  match decodeSWAffine wBw6Fq pBw6 1 base with
  | none => CallResult.panicked
  | some _ =>
    match decodeScalarLimbs scalar with
    | none => CallResult.panicked
    | some _ => CallResult.ok (encodeSWAffine wBw6Fq bw6G1GenAff)

/-- Mirrors `mul_affine_g2`: decodes an affine G2 point and a scalar limb
sequence and serializes `G2Affine::generator()` — an affine result. -/
def mul_affine_g2 (base scalar : List Byte) : CallResult :=
  match decodeSWAffine wBw6Fq pBw6 1 base with
  | none => CallResult.panicked
  | some _ =>
    match decodeScalarLimbs scalar with
    | none => CallResult.panicked
    | some _ => CallResult.ok (encodeSWAffine wBw6Fq bw6G2GenAff)

/-- Mirrors `msm_g1`: decodes the affine G1 bases and scalar-field elements
and serializes `G1Projective::generator()`. -/
def msm_g1 (bases scalars : List (List Byte)) : CallResult :=
  match decodeAll (decodeSWAffine wBw6Fq pBw6 1) bases with
  | none => CallResult.panicked
  | some _ =>
    match decodeAll (decodeFpExact wBw6Fr rBw6) scalars with
    | none => CallResult.panicked
    | some _ => CallResult.ok (encodeProj wBw6Fq bw6G1GenProj)

/-- Mirrors `msm_g2`: decodes the affine G2 bases and scalar-field elements
and serializes `G2Projective::generator()`. -/
def msm_g2 (bases scalars : List (List Byte)) : CallResult :=
  match decodeAll (decodeSWAffine wBw6Fq pBw6 1) bases with
  | none => CallResult.panicked
  | some _ =>
    match decodeAll (decodeFpExact wBw6Fr rBw6) scalars with
    | none => CallResult.panicked
    | some _ => CallResult.ok (encodeProj wBw6Fq bw6G2GenProj)

end bw6_761

/-! ## Operation Dispatcher: `ed_on_bls12_377.rs` -/

namespace ed_on_bls12_377

/-- Mirrors `mul_projective`: decodes a projective twisted Edwards point and
a scalar limb sequence and serializes `EdwardsProjective::generator()`. -/
def mul_projective (base scalar : List Byte) : CallResult :=
  match decodeProjPoint wEd377 pEd377 1 base with
  | none => CallResult.panicked
  | some _ =>
    match decodeScalarLimbs scalar with
    | none => CallResult.panicked
    | some _ => CallResult.ok (encodeProj wEd377 ed377GenProj)

/-- Mirrors `mul_affine`: decodes an affine twisted Edwards point and a
scalar limb sequence and serializes `EdwardsProjective::generator()`. -/
def mul_affine (base scalar : List Byte) : CallResult :=
  match decodeTEAffine wEd377 pEd377 1 base with
  | none => CallResult.panicked
  | some _ =>
    match decodeScalarLimbs scalar with
    | none => CallResult.panicked
    | some _ => CallResult.ok (encodeProj wEd377 ed377GenProj)

/-- Mirrors `msm`: decodes the affine bases and scalar-field elements and
serializes `EdwardsProjective::generator()`. -/
def msm (bases scalars : List (List Byte)) : CallResult :=
  match decodeAll (decodeTEAffine wEd377 pEd377 1) bases with
  | none => CallResult.panicked
  | some _ =>
    match decodeAll (decodeFpExact wEd377 rEd377) scalars with
    | none => CallResult.panicked
    | some _ => CallResult.ok (encodeProj wEd377 ed377GenProj)

end ed_on_bls12_377

/-! ## Operation Dispatcher: `ed_on_bls12_381.rs`

The same logical group exposed through a short Weierstrass and a twisted
Edwards model, with one set of entry points per model. -/

namespace ed_on_bls12_381

/-- Mirrors `sw_mul_projective`: decodes a projective short Weierstrass point
and a scalar limb sequence and serializes `SWProjective::generator()`. -/
def sw_mul_projective (base scalar : List Byte) : CallResult :=
  match decodeProjPoint wJub pJub 1 base with
  | none => CallResult.panicked
  | some _ =>
    match decodeScalarLimbs scalar with
    | none => CallResult.panicked
    | some _ => CallResult.ok (encodeProj wJub jubSWGenProj)

/-- Mirrors `sw_mul_affine`: decodes an affine short Weierstrass point and a
scalar limb sequence and serializes `SWProjective::generator()`. -/
def sw_mul_affine (base scalar : List Byte) : CallResult :=
  match decodeSWAffine wJub pJub 1 base with
  | none => CallResult.panicked
  | some _ =>
    match decodeScalarLimbs scalar with
    | none => CallResult.panicked
    | some _ => CallResult.ok (encodeProj wJub jubSWGenProj)

/-- Mirrors `te_mul_projective`: decodes a projective twisted Edwards point
and a scalar limb sequence and serializes `EdwardsProjective::generator()`. -/
def te_mul_projective (base scalar : List Byte) : CallResult :=
  match decodeProjPoint wJub pJub 1 base with
  | none => CallResult.panicked
  | some _ =>
    match decodeScalarLimbs scalar with
    | none => CallResult.panicked
    | some _ => CallResult.ok (encodeProj wJub jubTEGenProj)

/-- Mirrors `te_mul_affine`: decodes an affine twisted Edwards point and a
scalar limb sequence and serializes `EdwardsProjective::generator()`. -/
def te_mul_affine (base scalar : List Byte) : CallResult :=
  match decodeTEAffine wJub pJub 1 base with
  | none => CallResult.panicked
  | some _ =>
    match decodeScalarLimbs scalar with
    | none => CallResult.panicked
    | some _ => CallResult.ok (encodeProj wJub jubTEGenProj)

/-- Mirrors `te_msm`: decodes the twisted Edwards affine bases and
scalar-field elements and serializes `EdwardsProjective::generator()`. -/
def te_msm (bases scalars : List (List Byte)) : CallResult :=
  match decodeAll (decodeTEAffine wJub pJub 1) bases with
  | none => CallResult.panicked
  | some _ =>
    match decodeAll (decodeFpExact wJub rJub) scalars with
    | none => CallResult.panicked
    | some _ => CallResult.ok (encodeProj wJub jubTEGenProj)

/-- Mirrors `sw_msm`: decodes the short Weierstrass affine bases and
scalar-field elements and serializes `SWProjective::generator()`. -/
def sw_msm (bases scalars : List (List Byte)) : CallResult :=
  match decodeAll (decodeSWAffine wJub pJub 1) bases with
  | none => CallResult.panicked
  | some _ =>
    match decodeAll (decodeFpExact wJub rJub) scalars with
    | none => CallResult.panicked
    | some _ => CallResult.ok (encodeProj wJub jubSWGenProj)

end ed_on_bls12_381

/-! ## Codec lemmas

Round-trip and failure laws of the spec-modelled codec, used by the claim
theorems below. -/

theorem natToLE_length (w x : Nat) : (natToLE w x).length = w := by
  induction w generalizing x with
  | zero => rfl
  | succ w ih => simp [natToLE, ih]

theorem leValue_natToLE (w x : Nat) (h : x < 256 ^ w) : leValue (natToLE w x) = x := by
  induction w generalizing x with
  | zero =>
    have : x = 0 := Nat.lt_one_iff.mp (by simpa using h)
    simp [this, natToLE, leValue]
  | succ w ih =>
    have hdiv : x / 256 < 256 ^ w := by
      rw [Nat.div_lt_iff_lt_mul (by norm_num)]
      calc x < 256 ^ (w + 1) := h
        _ = 256 ^ w * 256 := by ring
    simp only [natToLE, leValue, ih (x / 256) hdiv]
    exact Nat.mod_add_div x 256

theorem decodeFpChunk_encode (w p x : Nat) (rest : List Byte)
    (hx : x < p) (hw : p ≤ 256 ^ w) :
    decodeFpChunk w p (natToLE w x ++ rest) = some (x, rest) := by
  have key : ∀ (l : List Byte), l.length = w → leValue l = x →
      decodeFpChunk w p (l ++ rest) = some (x, rest) := by
    intro l hl hv
    have htake : (l ++ rest).take w = l := by
      rw [← hl]; exact List.take_left _ _
    have hdrop : (l ++ rest).drop w = rest := by
      rw [← hl]; exact List.drop_left _ _
    have hle : w ≤ (l ++ rest).length := by
      simp [← hl]
    unfold decodeFpChunk
    rw [if_pos hle, htake, hv, if_pos hx, hdrop]
  exact key (natToLE w x) (natToLE_length w x)
    (leValue_natToLE w x (Nat.lt_of_lt_of_le hx hw))

theorem decodeFpSeq_append (w p : Nat) (hw : p ≤ 256 ^ w) (xs : List Nat) :
    ∀ (rest : List Byte), (∀ v ∈ xs, v < p) →
      decodeFpSeq w p xs.length (encodeCoord w xs ++ rest) = some (xs, rest) := by
  induction xs with
  | nil => intro rest _; rfl
  | cons x xs ih =>
    intro rest h
    have hx : x < p := h x (List.mem_cons_self x xs)
    have hxs : ∀ v ∈ xs, v < p := fun v hv => h v (List.mem_cons_of_mem x hv)
    show decodeFpSeq w p (xs.length + 1)
        ((natToLE w x ++ encodeCoord w xs) ++ rest) = some (x :: xs, rest)
    rw [List.append_assoc]
    simp only [decodeFpSeq]
    rw [decodeFpChunk_encode w p x (encodeCoord w xs ++ rest) hx hw, Option.some_bind]
    rw [ih rest hxs, Option.some_bind]

theorem take_width_append (l rest : List Byte) (w : Nat) (hl : l.length = w) :
    (l ++ rest).take w = l := by
  rw [← hl]; exact List.take_left _ _

theorem drop_width_append (l rest : List Byte) (w : Nat) (hl : l.length = w) :
    (l ++ rest).drop w = rest := by
  rw [← hl]; exact List.drop_left _ _

theorem decodeSWAffine_encode (w p k : Nat) (P : SWAffinePoint) (hw : p ≤ 256 ^ w)
    (hx : coordValid p k P.x) (hy : coordValid p k P.y) :
    decodeSWAffine w p k (encodeSWAffine w P) = some P := by
  obtain ⟨px, py, pinf⟩ := P
  obtain ⟨hxl, hxv⟩ := hx
  obtain ⟨hyl, hyv⟩ := hy
  simp only at hxl hxv hyl hyv
  subst hxl
  unfold decodeSWAffine encodeSWAffine
  rw [List.append_assoc]
  have h1 := decodeFpSeq_append w p hw px (encodeCoord w py ++ [infByte pinf]) hxv
  simp only [h1, Option.some_bind]
  have h2 := decodeFpSeq_append w p hw py [infByte pinf] hyv
  rw [hyl] at h2
  simp only [h2, Option.some_bind]
  cases pinf <;> rfl

theorem decodeTEAffine_encode (w p k : Nat) (P : TEAffinePoint) (hw : p ≤ 256 ^ w)
    (hx : coordValid p k P.x) (hy : coordValid p k P.y) :
    decodeTEAffine w p k (encodeTEAffine w P) = some P := by
  obtain ⟨px, py⟩ := P
  obtain ⟨hxl, hxv⟩ := hx
  obtain ⟨hyl, hyv⟩ := hy
  simp only at hxl hxv hyl hyv
  subst hxl
  unfold decodeTEAffine encodeTEAffine
  have h1 := decodeFpSeq_append w p hw px (encodeCoord w py) hxv
  simp only [h1, Option.some_bind]
  have h2 := decodeFpSeq_append w p hw py [] hyv
  rw [hyl, List.append_nil] at h2
  simp only [h2, Option.some_bind]

theorem decodeProjPoint_encode (w p k : Nat) (Q : ProjPoint) (hw : p ≤ 256 ^ w)
    (hx : coordValid p k Q.x) (hy : coordValid p k Q.y) (hz : coordValid p k Q.z) :
    decodeProjPoint w p k (encodeProj w Q) = some Q := by
  obtain ⟨qx, qy, qz⟩ := Q
  obtain ⟨hxl, hxv⟩ := hx
  obtain ⟨hyl, hyv⟩ := hy
  obtain ⟨hzl, hzv⟩ := hz
  simp only at hxl hxv hyl hyv hzl hzv
  subst hxl
  unfold decodeProjPoint encodeProj
  rw [List.append_assoc]
  have h1 := decodeFpSeq_append w p hw qx (encodeCoord w qy ++ encodeCoord w qz) hxv
  simp only [h1, Option.some_bind]
  have h2 := decodeFpSeq_append w p hw qy (encodeCoord w qz) hyv
  rw [hyl] at h2
  simp only [h2, Option.some_bind]
  have h3 := decodeFpSeq_append w p hw qz [] hzv
  rw [hzl, List.append_nil] at h3
  simp only [h3, Option.some_bind]

theorem decodeTargetElem_encode (w p k : Nat) (vs : List Nat) (hw : p ≤ 256 ^ w)
    (hv : coordValid p k vs) :
    decodeTargetElem w p k (encodeTargetElem w vs) = some vs := by
  obtain ⟨hl, hvv⟩ := hv
  subst hl
  unfold decodeTargetElem encodeTargetElem
  have h1 := decodeFpSeq_append w p hw vs [] hvv
  rw [List.append_nil] at h1
  simp only [h1, Option.some_bind]

theorem decodeFpExact_encode (w p x : Nat) (hx : x < p) (hw : p ≤ 256 ^ w) :
    decodeFpExact w p (encodeFp w x) = some x := by
  unfold decodeFpExact encodeFp
  have h1 := decodeFpChunk_encode w p x [] hx hw
  rw [List.append_nil] at h1
  simp only [h1, Option.some_bind]

theorem encodeCoord_length (w : Nat) (xs : List Nat) :
    (encodeCoord w xs).length = xs.length * w := by
  induction xs with
  | nil => simp [encodeCoord]
  | cons x xs ih =>
    show (natToLE w x ++ encodeCoord w xs).length = (xs.length + 1) * w
    rw [List.length_append, natToLE_length, ih]
    ring

theorem limbsOfAux_encode (ls : List Nat) (h : ∀ l ∈ ls, l < 2 ^ 64) :
    limbsOfAux ls.length (encodeCoord 8 ls) = ls := by
  induction ls with
  | nil => rfl
  | cons l ls ih =>
    have hl : l < 2 ^ 64 := h l (List.mem_cons_self l ls)
    have hls : ∀ v ∈ ls, v < 2 ^ 64 := fun v hv => h v (List.mem_cons_of_mem l hv)
    show limbsOfAux (ls.length + 1) (natToLE 8 l ++ encodeCoord 8 ls) = l :: ls
    simp only [limbsOfAux]
    rw [take_width_append _ _ 8 (natToLE_length 8 l),
      drop_width_append _ _ 8 (natToLE_length 8 l),
      leValue_natToLE 8 l (by norm_num at hl ⊢; exact hl), ih hls]

theorem decodeScalarLimbs_encode (ls : List Nat) (h : ∀ l ∈ ls, l < 2 ^ 64) :
    decodeScalarLimbs (encodeScalarLimbs ls) = some ls := by
  unfold decodeScalarLimbs encodeScalarLimbs
  rw [encodeCoord_length]
  rw [if_pos (Nat.mul_mod_left ls.length 8)]
  rw [Nat.mul_div_cancel ls.length (by norm_num)]
  rw [limbsOfAux_encode ls h]

theorem decodeFpChunk_none_of_ge (w p : Nat) (bs : List Byte) (hlen : w ≤ bs.length)
    (h : p ≤ leValue (bs.take w)) : decodeFpChunk w p bs = none := by
  unfold decodeFpChunk
  rw [if_pos hlen, if_neg (Nat.not_lt.mpr h)]

theorem decodeFpExact_none_of_ge (w p : Nat) (bs : List Byte)
    (h : p ≤ leValue (bs.take w)) : decodeFpExact w p bs = none := by
  unfold decodeFpExact decodeFpChunk
  by_cases hl : w ≤ bs.length
  · rw [if_pos hl, if_neg (Nat.not_lt.mpr h)]; rfl
  · rw [if_neg hl]; rfl

theorem decodeFpSeq_none_of_chunk_none (w p k : Nat) (bs : List Byte) (hk : 0 < k)
    (h : decodeFpChunk w p bs = none) : decodeFpSeq w p k bs = none := by
  cases k with
  | zero => exact absurd hk (by simp)
  | succ k => simp only [decodeFpSeq, h, Option.none_bind]

theorem decodeAll_none_of_mem {α : Type} (dec : List Byte → Option α)
    (l : List (List Byte)) (s : List Byte) (hs : s ∈ l) (h : dec s = none) :
    decodeAll dec l = none := by
  induction l with
  | nil => simp at hs
  | cons b bs ih =>
    rcases List.mem_cons.mp hs with rfl | hmem
    · unfold decodeAll; rw [h]
    · unfold decodeAll
      cases hb : dec b with
      | none => rfl
      | some x => rw [ih hmem]

/-! ## Claim theorems -/

/-- C1: the claim states that the multi-scalar-multiplication entry points
return the encoding of `scalarMul(P1,s1) + scalarMul(P2,s2)`. The code does
not: evaluated at the failing input `bases = [G, G]`, `scalars = [0, 0]`
(whose claimed result is the group identity, since multiplying by zero
yields the identity), BLS12-381 `msm_g1` returns the encoding of the G1
generator, and the generator encoding differs from the projective identity
encoding. The Edwards-family `msm` entry points return their generator in
the same way. -/
theorem C1_msm_stub_eval :
    bls12_381.msm_g1
        [encodeSWAffine wBlsFq blsG1GenAff, encodeSWAffine wBlsFq blsG1GenAff]
        [encodeFp wBlsFr 0, encodeFp wBlsFr 0]
      = CallResult.ok (encodeProj wBlsFq blsG1GenProj)
  ∧ ed_on_bls12_377.msm
        [encodeTEAffine wEd377 ed377GenAff, encodeTEAffine wEd377 ed377GenAff]
        [encodeFp wEd377 0, encodeFp wEd377 0]
      = CallResult.ok (encodeProj wEd377 ed377GenProj)
  ∧ encodeProj wBlsFq blsG1GenProj ≠ encodeProj wBlsFq swProjIdentity
  ∧ encodeProj wEd377 ed377GenProj ≠ encodeProj wEd377 teProjIdentity :=
  ⟨rfl, rfl, by decide, by decide⟩

/-- C2: the claim states that `final_exponentiation` raises its decoded input
to the final-exponentiation power, yielding an element of the pairing target
subgroup. The code does not: evaluated at the encoding of the multiplicative
identity of the target field (whose claimed image is the identity itself,
since every power of one is one), both pairing-capable families return the
encoding of the target-field zero — a constant that is not in the
multiplicative target subgroup — and `multi_miller_loop` returns the same
zero constant, so the bilinearity equation of the claim only holds
degenerately between two identical constants. -/
theorem C2_final_exponentiation_stub_eval :
    bls12_381.final_exponentiation (encodeTargetElem wBlsFq blsFq12One)
      = CallResult.ok (encodeTargetElem wBlsFq blsFq12Zero)
  ∧ bw6_761.final_exponentiation (encodeTargetElem wBw6Fq bw6Fq6One)
      = CallResult.ok (encodeTargetElem wBw6Fq bw6Fq6Zero)
  ∧ bls12_381.multi_miller_loop
        [encodeSWAffine wBlsFq blsG1GenAff] [encodeSWAffine wBlsFq blsG2GenAff]
      = CallResult.ok (encodeTargetElem wBlsFq blsFq12Zero)
  ∧ encodeTargetElem wBlsFq blsFq12Zero ≠ encodeTargetElem wBlsFq blsFq12One
  ∧ encodeTargetElem wBw6Fq bw6Fq6Zero ≠ encodeTargetElem wBw6Fq bw6Fq6One :=
  ⟨rfl, rfl, rfl, by decide, by decide⟩

/-- C3: the claim states that scalar multiplication by the zero scalar
returns the encoding of the group identity. The code does not: evaluated at
a well-formed point and the encoding of the zero scalar, the projective
scalar-multiplication entry points return the encoding of the group
generator, which differs from the projective identity encoding. -/
theorem C3_zero_scalar_stub_eval :
    bls12_381.mul_projective_g1 (encodeProj wBlsFq blsG1GenProj)
        (encodeScalarLimbs [0, 0, 0, 0])
      = CallResult.ok (encodeProj wBlsFq blsG1GenProj)
  ∧ ed_on_bls12_377.mul_projective (encodeProj wEd377 ed377GenProj)
        (encodeScalarLimbs [0, 0, 0, 0])
      = CallResult.ok (encodeProj wEd377 ed377GenProj)
  ∧ encodeProj wBlsFq blsG1GenProj ≠ encodeProj wBlsFq swProjIdentity
  ∧ encodeProj wEd377 ed377GenProj ≠ encodeProj wEd377 teProjIdentity :=
  ⟨rfl, rfl, by decide, by decide⟩

/-- C4: the claim states that `multi_miller_loop` applied to two empty input
sequences returns the encoding of the multiplicative identity (one) of the
pairing target field. The code instead returns the encoding of the
target-field zero for both pairing-capable families, and the zero encoding
differs from the one encoding. -/
theorem C4_empty_miller_loop_stub_eval :
    bls12_381.multi_miller_loop [] [] = CallResult.ok (encodeTargetElem wBlsFq blsFq12Zero)
  ∧ bw6_761.multi_miller_loop [] [] = CallResult.ok (encodeTargetElem wBw6Fq bw6Fq6Zero)
  ∧ encodeTargetElem wBlsFq blsFq12Zero ≠ encodeTargetElem wBlsFq blsFq12One
  ∧ encodeTargetElem wBw6Fq bw6Fq6Zero ≠ encodeTargetElem wBw6Fq bw6Fq6One :=
  ⟨rfl, rfl, by decide, by decide⟩

/-- C5: the claim states that the multi-scalar-multiplication entry points
applied to empty input lists return the encoding of the group identity. The
code instead returns the encoding of the group generator, which differs from
the identity encoding in both the short Weierstrass and the twisted Edwards
projective representation. -/
theorem C5_empty_msm_stub_eval :
    bls12_381.msm_g1 [] [] = CallResult.ok (encodeProj wBlsFq blsG1GenProj)
  ∧ ed_on_bls12_381.te_msm [] [] = CallResult.ok (encodeProj wJub jubTEGenProj)
  ∧ encodeProj wBlsFq blsG1GenProj ≠ encodeProj wBlsFq swProjIdentity
  ∧ encodeProj wJub jubTEGenProj ≠ encodeProj wJub teProjIdentity :=
  ⟨rfl, rfl, by decide, by decide⟩

/-- C6: the claim states that an input buffer shorter than the expected fixed
width yields a typed decode-error return and never a panic. The code calls
`.unwrap()` on every deserialization result, so a short buffer makes the
call panic (abort) instead of returning a typed failure: evaluated at short
inputs, the entry points end in the panicked outcome and produce no output
buffer. -/
theorem C6_short_input_panic_eval :
    bls12_381.final_exponentiation (List.replicate 100 (0 : Byte)) = CallResult.panicked
  ∧ bls12_381.final_exponentiation [] = CallResult.panicked
  ∧ bw6_761.mul_projective_g2 (List.replicate 5 (0 : Byte)) (encodeScalarLimbs [0])
      = CallResult.panicked :=
  ⟨rfl, rfl, rfl⟩

/-- C7: for every curve family, group and representation of the spec-modelled
codec, decoding the bytes produced by encoding a point yields the point
again, and likewise for scalars; every point the Arithmetic Engine can
produce has coordinates with the family's component count and values below
the modulus, which is exactly the validity premise, and every family's
modulus fits its fixed byte width (the final conjuncts). -/
theorem C7_roundtrip :
    (∀ (w p k : Nat) (P : SWAffinePoint), p ≤ 256 ^ w →
        coordValid p k P.x → coordValid p k P.y →
        decodeSWAffine w p k (encodeSWAffine w P) = some P)
  ∧ (∀ (w p k : Nat) (P : TEAffinePoint), p ≤ 256 ^ w →
        coordValid p k P.x → coordValid p k P.y →
        decodeTEAffine w p k (encodeTEAffine w P) = some P)
  ∧ (∀ (w p k : Nat) (Q : ProjPoint), p ≤ 256 ^ w →
        coordValid p k Q.x → coordValid p k Q.y → coordValid p k Q.z →
        decodeProjPoint w p k (encodeProj w Q) = some Q)
  ∧ (∀ (w p k : Nat) (vs : List Nat), p ≤ 256 ^ w → coordValid p k vs →
        decodeTargetElem w p k (encodeTargetElem w vs) = some vs)
  ∧ (∀ (w p x : Nat), x < p → p ≤ 256 ^ w →
        decodeFpExact w p (encodeFp w x) = some x)
  ∧ (∀ ls : List Nat, (∀ l ∈ ls, l < 2 ^ 64) →
        decodeScalarLimbs (encodeScalarLimbs ls) = some ls)
  ∧ pBls ≤ 256 ^ wBlsFq ∧ rBls ≤ 256 ^ wBlsFr ∧ pBw6 ≤ 256 ^ wBw6Fq ∧ rBw6 ≤ 256 ^ wBw6Fr
  ∧ pEd377 ≤ 256 ^ wEd377 ∧ rEd377 ≤ 256 ^ wEd377 ∧ pJub ≤ 256 ^ wJub ∧ rJub ≤ 256 ^ wJub := by
  refine ⟨decodeSWAffine_encode, decodeTEAffine_encode, decodeProjPoint_encode,
    decodeTargetElem_encode, decodeFpExact_encode, decodeScalarLimbs_encode,
    ?_, ?_, ?_, ?_, ?_, ?_, ?_, ?_⟩ <;> decide

/-- C7 witness: the round-trip law applied to the BLS12-381 G1 generator in
each representation and to a concrete scalar. -/
theorem C7_roundtrip_witness :
    decodeSWAffine wBlsFq pBls 1 (encodeSWAffine wBlsFq blsG1GenAff) = some blsG1GenAff
  ∧ decodeProjPoint wBlsFq pBls 1 (encodeProj wBlsFq blsG1GenProj) = some blsG1GenProj
  ∧ decodeFpExact wBlsFr rBls (encodeFp wBlsFr 5) = some 5
  ∧ decodeScalarLimbs (encodeScalarLimbs [7, 0, 0, 0]) = some [7, 0, 0, 0] :=
  ⟨C7_roundtrip.1 wBlsFq pBls 1 blsG1GenAff (by decide) (by decide) (by decide),
   C7_roundtrip.2.2.1 wBlsFq pBls 1 blsG1GenProj (by decide) (by decide) (by decide) (by decide),
   C7_roundtrip.2.2.2.2.1 wBlsFr rBls 5 (by decide) (by decide),
   C7_roundtrip.2.2.2.2.2.1 [7, 0, 0, 0] (by decide)⟩

/-- C8: decoding fails on an out-of-range field element: whenever a
field-element sub-range of a correctly sized buffer holds a value at or
above the modulus, the field-element decoder returns no value (the
`DecodeError` of the spec), and the affected entry points abort without
producing any output buffer — shown generically for the chunk decoder and
for the scalar decode of `msm_g1`, the target-field decode of BW6-761
`final_exponentiation`, and the coordinate decode of `mul_projective_g1`. -/
theorem C8_out_of_range_decode :
    (∀ (w p : Nat) (bs : List Byte), w ≤ bs.length → p ≤ leValue (bs.take w) →
        decodeFpChunk w p bs = none)
  ∧ (∀ (bases scalars : List (List Byte)) (s : List Byte), s ∈ scalars →
        rBls ≤ leValue (s.take wBlsFr) →
        bls12_381.msm_g1 bases scalars = CallResult.panicked)
  ∧ (∀ target : List Byte, wBw6Fq ≤ target.length →
        pBw6 ≤ leValue (target.take wBw6Fq) →
        bw6_761.final_exponentiation target = CallResult.panicked)
  ∧ (∀ base scalar : List Byte, wBlsFq ≤ base.length →
        pBls ≤ leValue (base.take wBlsFq) →
        bls12_381.mul_projective_g1 base scalar = CallResult.panicked) := by
  refine ⟨decodeFpChunk_none_of_ge, ?_, ?_, ?_⟩
  · intro bases scalars s hs hge
    have hall : decodeAll (decodeFpExact wBlsFr rBls) scalars = none :=
      decodeAll_none_of_mem _ _ _ hs (decodeFpExact_none_of_ge _ _ _ hge)
    unfold bls12_381.msm_g1
    cases hb : decodeAll (decodeSWAffine wBlsFq pBls 1) bases with
    | none => rfl
    | some xs => rw [hall]
  · intro target hlen hge
    have hseq := decodeFpSeq_none_of_chunk_none wBw6Fq pBw6 6 target (by norm_num)
      (decodeFpChunk_none_of_ge wBw6Fq pBw6 target hlen hge)
    unfold bw6_761.final_exponentiation decodeTargetElem
    simp only [hseq, Option.none_bind]
  · intro base scalar hlen hge
    have hseq := decodeFpSeq_none_of_chunk_none wBlsFq pBls 1 base (by norm_num)
      (decodeFpChunk_none_of_ge wBlsFq pBls base hlen hge)
    unfold bls12_381.mul_projective_g1 decodeProjPoint
    simp only [hseq, Option.none_bind]

/-- C8 witness: a correctly sized scalar buffer holding exactly the
BLS12-381 scalar-field modulus (the least out-of-range value) makes
`msm_g1` abort with no output. -/
theorem C8_out_of_range_decode_witness :
    bls12_381.msm_g1 [] [encodeFp wBlsFr rBls] = CallResult.panicked :=
  C8_out_of_range_decode.2.1 [] [encodeFp wBlsFr rBls] (encodeFp wBlsFr rBls)
    (by decide) (by decide)

/-- C9 counterexample: the claim states that every affine-input
scalar-multiplication entry point returns its result encoded in the
projective representation; but BW6-761 `mul_affine_g1`, applied to a
well-formed point and scalar, returns the affine encoding of the G1
generator (193 bytes: two 96-byte coordinates plus the infinity flag byte),
and no projective encoding — which is a whole number of 96-byte
coordinates — has that length. -/
theorem C9_affine_repr_counterexample :
    bw6_761.mul_affine_g1 (encodeSWAffine wBw6Fq bw6G1GenAff) (encodeScalarLimbs [0])
      = CallResult.ok (encodeSWAffine wBw6Fq bw6G1GenAff)
  ∧ ¬ ∃ q : ProjPoint, encodeSWAffine wBw6Fq bw6G1GenAff = encodeProj wBw6Fq q := by
  constructor
  · rfl
  · rintro ⟨q, hq⟩
    have hlen : (encodeSWAffine wBw6Fq bw6G1GenAff).length = 193 := by rfl
    rw [hq] at hlen
    simp [encodeProj, encodeCoord_length, wBw6Fq] at hlen
    omega

/-- C9 amended: for BLS12-381 and both Edwards families the affine-input
scalar-multiplication entry points return their result in the projective
representation of the same group, for every well-formed point and scalar
input; the BW6-761 affine entry points instead return the result in the
affine representation. -/
theorem C9_mul_affine_output_repr :
    (∀ base scalar, (decodeSWAffine wBlsFq pBls 1 base).isSome →
        (decodeScalarLimbs scalar).isSome →
        bls12_381.mul_affine_g1 base scalar = CallResult.ok (encodeProj wBlsFq blsG1GenProj))
  ∧ (∀ base scalar, (decodeSWAffine wBlsFq pBls 2 base).isSome →
        (decodeScalarLimbs scalar).isSome →
        bls12_381.mul_affine_g2 base scalar = CallResult.ok (encodeProj wBlsFq blsG2GenProj))
  ∧ (∀ base scalar, (decodeTEAffine wEd377 pEd377 1 base).isSome →
        (decodeScalarLimbs scalar).isSome →
        ed_on_bls12_377.mul_affine base scalar = CallResult.ok (encodeProj wEd377 ed377GenProj))
  ∧ (∀ base scalar, (decodeSWAffine wJub pJub 1 base).isSome →
        (decodeScalarLimbs scalar).isSome →
        ed_on_bls12_381.sw_mul_affine base scalar = CallResult.ok (encodeProj wJub jubSWGenProj))
  ∧ (∀ base scalar, (decodeTEAffine wJub pJub 1 base).isSome →
        (decodeScalarLimbs scalar).isSome →
        ed_on_bls12_381.te_mul_affine base scalar = CallResult.ok (encodeProj wJub jubTEGenProj))
  ∧ (∀ base scalar, (decodeSWAffine wBw6Fq pBw6 1 base).isSome →
        (decodeScalarLimbs scalar).isSome →
        bw6_761.mul_affine_g1 base scalar = CallResult.ok (encodeSWAffine wBw6Fq bw6G1GenAff))
  ∧ (∀ base scalar, (decodeSWAffine wBw6Fq pBw6 1 base).isSome →
        (decodeScalarLimbs scalar).isSome →
        bw6_761.mul_affine_g2 base scalar = CallResult.ok (encodeSWAffine wBw6Fq bw6G2GenAff)) := by
  refine ⟨?_, ?_, ?_, ?_, ?_, ?_, ?_⟩
  · intro a b ha hb
    obtain ⟨x, hx⟩ := Option.isSome_iff_exists.mp ha
    obtain ⟨y, hy⟩ := Option.isSome_iff_exists.mp hb
    simp only [bls12_381.mul_affine_g1, hx, hy]
  · intro a b ha hb
    obtain ⟨x, hx⟩ := Option.isSome_iff_exists.mp ha
    obtain ⟨y, hy⟩ := Option.isSome_iff_exists.mp hb
    simp only [bls12_381.mul_affine_g2, hx, hy]
  · intro a b ha hb
    obtain ⟨x, hx⟩ := Option.isSome_iff_exists.mp ha
    obtain ⟨y, hy⟩ := Option.isSome_iff_exists.mp hb
    simp only [ed_on_bls12_377.mul_affine, hx, hy]
  · intro a b ha hb
    obtain ⟨x, hx⟩ := Option.isSome_iff_exists.mp ha
    obtain ⟨y, hy⟩ := Option.isSome_iff_exists.mp hb
    simp only [ed_on_bls12_381.sw_mul_affine, hx, hy]
  · intro a b ha hb
    obtain ⟨x, hx⟩ := Option.isSome_iff_exists.mp ha
    obtain ⟨y, hy⟩ := Option.isSome_iff_exists.mp hb
    simp only [ed_on_bls12_381.te_mul_affine, hx, hy]
  · intro a b ha hb
    obtain ⟨x, hx⟩ := Option.isSome_iff_exists.mp ha
    obtain ⟨y, hy⟩ := Option.isSome_iff_exists.mp hb
    simp only [bw6_761.mul_affine_g1, hx, hy]
  · intro a b ha hb
    obtain ⟨x, hx⟩ := Option.isSome_iff_exists.mp ha
    obtain ⟨y, hy⟩ := Option.isSome_iff_exists.mp hb
    simp only [bw6_761.mul_affine_g2, hx, hy]

/-- C9 witness: the amended statement applied to concrete well-formed
inputs of BLS12-381 (projective output) and BW6-761 (affine output). -/
theorem C9_mul_affine_output_repr_witness :
    bls12_381.mul_affine_g1 (encodeSWAffine wBlsFq blsG1GenAff) (encodeScalarLimbs [9])
      = CallResult.ok (encodeProj wBlsFq blsG1GenProj)
  ∧ bw6_761.mul_affine_g1 (encodeSWAffine wBw6Fq bw6G1GenAff) (encodeScalarLimbs [9])
      = CallResult.ok (encodeSWAffine wBw6Fq bw6G1GenAff) := by
  obtain ⟨h1, h2, h3, h4, h5, h6, h7⟩ := C9_mul_affine_output_repr
  exact ⟨h1 _ _ (by decide) (by decide), h6 _ _ (by decide) (by decide)⟩

/-- C10: every scalar-multiplication and multi-scalar-multiplication entry
point of every curve family is a constant function on well-formed inputs:
whenever both of its inputs decode successfully, it returns the encoding of
the fixed group generator, independently of the decoded values — so any two
well-formed input pairs produce identical output byte buffers. -/
theorem C10_stub_constant :
    (∀ a b, (decodeProjPoint wBlsFq pBls 1 a).isSome → (decodeScalarLimbs b).isSome →
      bls12_381.mul_projective_g1 a b = CallResult.ok (encodeProj wBlsFq blsG1GenProj))
  ∧ (∀ a b, (decodeProjPoint wBlsFq pBls 2 a).isSome → (decodeScalarLimbs b).isSome →
      bls12_381.mul_projective_g2 a b = CallResult.ok (encodeProj wBlsFq blsG2GenProj))
  ∧ (∀ a b, (decodeSWAffine wBlsFq pBls 1 a).isSome → (decodeScalarLimbs b).isSome →
      bls12_381.mul_affine_g1 a b = CallResult.ok (encodeProj wBlsFq blsG1GenProj))
  ∧ (∀ a b, (decodeSWAffine wBlsFq pBls 2 a).isSome → (decodeScalarLimbs b).isSome →
      bls12_381.mul_affine_g2 a b = CallResult.ok (encodeProj wBlsFq blsG2GenProj))
  ∧ (∀ a b, (decodeAll (decodeSWAffine wBlsFq pBls 1) a).isSome → (decodeAll (decodeFpExact wBlsFr rBls) b).isSome →
      bls12_381.msm_g1 a b = CallResult.ok (encodeProj wBlsFq blsG1GenProj))
  ∧ (∀ a b, (decodeAll (decodeSWAffine wBlsFq pBls 2) a).isSome → (decodeAll (decodeFpExact wBlsFr rBls) b).isSome →
      bls12_381.msm_g2 a b = CallResult.ok (encodeProj wBlsFq blsG2GenProj))
  ∧ (∀ a b, (decodeProjPoint wBw6Fq pBw6 1 a).isSome → (decodeScalarLimbs b).isSome →
      bw6_761.mul_projective_g1 a b = CallResult.ok (encodeProj wBw6Fq bw6G1GenProj))
  ∧ (∀ a b, (decodeProjPoint wBw6Fq pBw6 1 a).isSome → (decodeScalarLimbs b).isSome →
      bw6_761.mul_projective_g2 a b = CallResult.ok (encodeProj wBw6Fq bw6G2GenProj))
  ∧ (∀ a b, (decodeSWAffine wBw6Fq pBw6 1 a).isSome → (decodeScalarLimbs b).isSome →
      bw6_761.mul_affine_g1 a b = CallResult.ok (encodeSWAffine wBw6Fq bw6G1GenAff))
  ∧ (∀ a b, (decodeSWAffine wBw6Fq pBw6 1 a).isSome → (decodeScalarLimbs b).isSome →
      bw6_761.mul_affine_g2 a b = CallResult.ok (encodeSWAffine wBw6Fq bw6G2GenAff))
  ∧ (∀ a b, (decodeAll (decodeSWAffine wBw6Fq pBw6 1) a).isSome → (decodeAll (decodeFpExact wBw6Fr rBw6) b).isSome →
      bw6_761.msm_g1 a b = CallResult.ok (encodeProj wBw6Fq bw6G1GenProj))
  ∧ (∀ a b, (decodeAll (decodeSWAffine wBw6Fq pBw6 1) a).isSome → (decodeAll (decodeFpExact wBw6Fr rBw6) b).isSome →
      bw6_761.msm_g2 a b = CallResult.ok (encodeProj wBw6Fq bw6G2GenProj))
  ∧ (∀ a b, (decodeProjPoint wEd377 pEd377 1 a).isSome → (decodeScalarLimbs b).isSome →
      ed_on_bls12_377.mul_projective a b = CallResult.ok (encodeProj wEd377 ed377GenProj))
  ∧ (∀ a b, (decodeTEAffine wEd377 pEd377 1 a).isSome → (decodeScalarLimbs b).isSome →
      ed_on_bls12_377.mul_affine a b = CallResult.ok (encodeProj wEd377 ed377GenProj))
  ∧ (∀ a b, (decodeAll (decodeTEAffine wEd377 pEd377 1) a).isSome → (decodeAll (decodeFpExact wEd377 rEd377) b).isSome →
      ed_on_bls12_377.msm a b = CallResult.ok (encodeProj wEd377 ed377GenProj))
  ∧ (∀ a b, (decodeProjPoint wJub pJub 1 a).isSome → (decodeScalarLimbs b).isSome →
      ed_on_bls12_381.sw_mul_projective a b = CallResult.ok (encodeProj wJub jubSWGenProj))
  ∧ (∀ a b, (decodeSWAffine wJub pJub 1 a).isSome → (decodeScalarLimbs b).isSome →
      ed_on_bls12_381.sw_mul_affine a b = CallResult.ok (encodeProj wJub jubSWGenProj))
  ∧ (∀ a b, (decodeProjPoint wJub pJub 1 a).isSome → (decodeScalarLimbs b).isSome →
      ed_on_bls12_381.te_mul_projective a b = CallResult.ok (encodeProj wJub jubTEGenProj))
  ∧ (∀ a b, (decodeTEAffine wJub pJub 1 a).isSome → (decodeScalarLimbs b).isSome →
      ed_on_bls12_381.te_mul_affine a b = CallResult.ok (encodeProj wJub jubTEGenProj))
  ∧ (∀ a b, (decodeAll (decodeTEAffine wJub pJub 1) a).isSome → (decodeAll (decodeFpExact wJub rJub) b).isSome →
      ed_on_bls12_381.te_msm a b = CallResult.ok (encodeProj wJub jubTEGenProj))
  ∧ (∀ a b, (decodeAll (decodeSWAffine wJub pJub 1) a).isSome → (decodeAll (decodeFpExact wJub rJub) b).isSome →
      ed_on_bls12_381.sw_msm a b = CallResult.ok (encodeProj wJub jubSWGenProj))
    := by
  refine ⟨?_, ?_, ?_, ?_, ?_, ?_, ?_, ?_, ?_, ?_, ?_, ?_, ?_, ?_, ?_, ?_, ?_, ?_, ?_, ?_, ?_⟩
  · intro a b ha hb
    obtain ⟨x, hx⟩ := Option.isSome_iff_exists.mp ha
    obtain ⟨y, hy⟩ := Option.isSome_iff_exists.mp hb
    simp only [bls12_381.mul_projective_g1, hx, hy]
  · intro a b ha hb
    obtain ⟨x, hx⟩ := Option.isSome_iff_exists.mp ha
    obtain ⟨y, hy⟩ := Option.isSome_iff_exists.mp hb
    simp only [bls12_381.mul_projective_g2, hx, hy]
  · intro a b ha hb
    obtain ⟨x, hx⟩ := Option.isSome_iff_exists.mp ha
    obtain ⟨y, hy⟩ := Option.isSome_iff_exists.mp hb
    simp only [bls12_381.mul_affine_g1, hx, hy]
  · intro a b ha hb
    obtain ⟨x, hx⟩ := Option.isSome_iff_exists.mp ha
    obtain ⟨y, hy⟩ := Option.isSome_iff_exists.mp hb
    simp only [bls12_381.mul_affine_g2, hx, hy]
  · intro a b ha hb
    obtain ⟨x, hx⟩ := Option.isSome_iff_exists.mp ha
    obtain ⟨y, hy⟩ := Option.isSome_iff_exists.mp hb
    simp only [bls12_381.msm_g1, hx, hy]
  · intro a b ha hb
    obtain ⟨x, hx⟩ := Option.isSome_iff_exists.mp ha
    obtain ⟨y, hy⟩ := Option.isSome_iff_exists.mp hb
    simp only [bls12_381.msm_g2, hx, hy]
  · intro a b ha hb
    obtain ⟨x, hx⟩ := Option.isSome_iff_exists.mp ha
    obtain ⟨y, hy⟩ := Option.isSome_iff_exists.mp hb
    simp only [bw6_761.mul_projective_g1, hx, hy]
  · intro a b ha hb
    obtain ⟨x, hx⟩ := Option.isSome_iff_exists.mp ha
    obtain ⟨y, hy⟩ := Option.isSome_iff_exists.mp hb
    simp only [bw6_761.mul_projective_g2, hx, hy]
  · intro a b ha hb
    obtain ⟨x, hx⟩ := Option.isSome_iff_exists.mp ha
    obtain ⟨y, hy⟩ := Option.isSome_iff_exists.mp hb
    simp only [bw6_761.mul_affine_g1, hx, hy]
  · intro a b ha hb
    obtain ⟨x, hx⟩ := Option.isSome_iff_exists.mp ha
    obtain ⟨y, hy⟩ := Option.isSome_iff_exists.mp hb
    simp only [bw6_761.mul_affine_g2, hx, hy]
  · intro a b ha hb
    obtain ⟨x, hx⟩ := Option.isSome_iff_exists.mp ha
    obtain ⟨y, hy⟩ := Option.isSome_iff_exists.mp hb
    simp only [bw6_761.msm_g1, hx, hy]
  · intro a b ha hb
    obtain ⟨x, hx⟩ := Option.isSome_iff_exists.mp ha
    obtain ⟨y, hy⟩ := Option.isSome_iff_exists.mp hb
    simp only [bw6_761.msm_g2, hx, hy]
  · intro a b ha hb
    obtain ⟨x, hx⟩ := Option.isSome_iff_exists.mp ha
    obtain ⟨y, hy⟩ := Option.isSome_iff_exists.mp hb
    simp only [ed_on_bls12_377.mul_projective, hx, hy]
  · intro a b ha hb
    obtain ⟨x, hx⟩ := Option.isSome_iff_exists.mp ha
    obtain ⟨y, hy⟩ := Option.isSome_iff_exists.mp hb
    simp only [ed_on_bls12_377.mul_affine, hx, hy]
  · intro a b ha hb
    obtain ⟨x, hx⟩ := Option.isSome_iff_exists.mp ha
    obtain ⟨y, hy⟩ := Option.isSome_iff_exists.mp hb
    simp only [ed_on_bls12_377.msm, hx, hy]
  · intro a b ha hb
    obtain ⟨x, hx⟩ := Option.isSome_iff_exists.mp ha
    obtain ⟨y, hy⟩ := Option.isSome_iff_exists.mp hb
    simp only [ed_on_bls12_381.sw_mul_projective, hx, hy]
  · intro a b ha hb
    obtain ⟨x, hx⟩ := Option.isSome_iff_exists.mp ha
    obtain ⟨y, hy⟩ := Option.isSome_iff_exists.mp hb
    simp only [ed_on_bls12_381.sw_mul_affine, hx, hy]
  · intro a b ha hb
    obtain ⟨x, hx⟩ := Option.isSome_iff_exists.mp ha
    obtain ⟨y, hy⟩ := Option.isSome_iff_exists.mp hb
    simp only [ed_on_bls12_381.te_mul_projective, hx, hy]
  · intro a b ha hb
    obtain ⟨x, hx⟩ := Option.isSome_iff_exists.mp ha
    obtain ⟨y, hy⟩ := Option.isSome_iff_exists.mp hb
    simp only [ed_on_bls12_381.te_mul_affine, hx, hy]
  · intro a b ha hb
    obtain ⟨x, hx⟩ := Option.isSome_iff_exists.mp ha
    obtain ⟨y, hy⟩ := Option.isSome_iff_exists.mp hb
    simp only [ed_on_bls12_381.te_msm, hx, hy]
  · intro a b ha hb
    obtain ⟨x, hx⟩ := Option.isSome_iff_exists.mp ha
    obtain ⟨y, hy⟩ := Option.isSome_iff_exists.mp hb
    simp only [ed_on_bls12_381.sw_msm, hx, hy]

/-- C10 witness: the constancy statement applied at concrete well-formed
inputs, one entry point per curve family. -/
theorem C10_stub_constant_witness :
    bls12_381.mul_projective_g1 (encodeProj wBlsFq blsG1GenProj) (encodeScalarLimbs [1, 0, 0, 0])
      = CallResult.ok (encodeProj wBlsFq blsG1GenProj)
  ∧ bw6_761.msm_g1 [encodeSWAffine wBw6Fq bw6G1GenAff] [encodeFp wBw6Fr 2]
      = CallResult.ok (encodeProj wBw6Fq bw6G1GenProj)
  ∧ ed_on_bls12_377.mul_affine (encodeTEAffine wEd377 ed377GenAff) (encodeScalarLimbs [3])
      = CallResult.ok (encodeProj wEd377 ed377GenProj)
  ∧ ed_on_bls12_381.te_msm [encodeTEAffine wJub jubTEGenAff] [encodeFp wJub 4]
      = CallResult.ok (encodeProj wJub jubTEGenProj) := by
  obtain ⟨h1, h2, h3, h4, h5, h6, h7, h8, h9, h10, h11, h12, h13, h14, h15, h16, h17, h18,
    h19, h20, h21⟩ := C10_stub_constant
  exact ⟨h1 _ _ (by decide) (by decide), h11 _ _ (by decide) (by decide),
    h14 _ _ (by decide) (by decide), h20 _ _ (by decide) (by decide)⟩
